import Mathlib

/-!
Shallow embedding of the pharmacy-calculator core (drug normalizer, quantity
calculator, NDC package selector, and the orchestrating pipeline) together
with theorems settling the specification claims.

Conventions of the embedding:
* JavaScript `number` values are modelled as `ℚ` (the claims under scrutiny
  involve only exact decimal arithmetic; `NaN`/`Infinity` paths guarded by
  `typeof`/`isNaN` checks are unrepresentable over `ℚ` and noted in place).
* `throw`/`try`/`catch` control flow is modelled with `Except APIError`.
* The external collaborators (RxNorm, FDA, OpenAI clients) are oracles
  bundled in a `Collaborators` structure; every function of the core is a
  pure function of its inputs and these oracles.
* Optional (`?:`) fields are `Option`; `undefined` is `none`.
-/

namespace PharmCalc

/-- `APIError` from `types.ts` (the untyped `details` payload is dropped:
no code path of the core reads it). -/
structure APIError where
  message : String
  code : Option String := none
  deriving Repr, DecidableEq

/-- `RxCUIResult` from `types.ts`. -/
structure RxCUIResult where
  rxcui : String
  name : String
  synonym : Option String := none
  deriving Repr, DecidableEq

/-- `NDCPackage` from `types.ts`. -/
structure NDCPackage where
  ndc : String
  packageDescription : String
  packageSize : ℚ
  packageUnit : String
  productName : String
  manufacturer : String
  active : Bool
  startMarketingDate : Option String := none
  endMarketingDate : Option String := none
  deriving Repr, DecidableEq

/-- `ParsedSIG` from `types.ts`. -/
structure ParsedSIG where
  dose : ℚ
  doseUnit : String
  frequency : ℚ
  route : String
  instructions : String
  isAmbiguous : Bool
  clarificationNeeded : Option String := none
  deriving Repr, DecidableEq

/-- `QuantityCalculation` from `types.ts`. -/
structure QuantityCalculation where
  totalQuantityNeeded : ℚ
  unit : String
  daysSupply : ℚ
  dailyDose : ℚ
  deriving Repr, DecidableEq

/-- `NDCSelection` from `types.ts` (`numberOfPackages` is produced by
`Math.ceil`, hence an integer). -/
structure NDCSelection where
  ndc : String
  packageSize : ℚ
  packageUnit : String
  quantityToDispense : ℚ
  numberOfPackages : ℤ
  overfillPercentage : ℚ
  productName : String
  manufacturer : String
  deriving Repr, DecidableEq

/-- `CalculationInput` from `types.ts`. -/
structure CalculationInput where
  drugNameOrNDC : String
  sig : String
  daysSupply : ℚ
  deriving Repr, DecidableEq

/-- `CalculationResult` from `types.ts`.  `timestamp` is threaded in from the
environment (the source calls `new Date().toISOString()`). -/
structure CalculationResult where
  success : Bool
  input : CalculationInput
  normalizedDrug : Option RxCUIResult := none
  parsedSIG : Option ParsedSIG := none
  calculation : Option QuantityCalculation := none
  selectedNDCs : List NDCSelection
  alternativeNDCs : Option (List NDCSelection) := none
  warnings : List String
  errors : Option (List String) := none
  timestamp : String
  deriving Repr, DecidableEq

/-! ## quantity-calculator.ts -/

/-- Result record of `validateDaysSupply`. -/
structure DaysSupplyValidation where
  valid : Bool
  errors : List String
  deriving Repr, DecidableEq

/-- `calculateQuantity` from `quantity-calculator.ts`.  The `!sig` null guard
of the source cannot fire in the embedding (the argument is always present);
`daysSupply` is a genuine `number` so the range guards are kept verbatim. -/
def calculateQuantity (sig : ParsedSIG) (daysSupply : ℚ) :
    Except APIError QuantityCalculation :=
  if daysSupply ≤ 0 then
    .error { message := "Days supply must be greater than 0", code := some "INVALID_INPUT" }
  else if daysSupply > 365 then
    .error { message := "Days supply cannot exceed 365 days", code := some "INVALID_INPUT" }
  else if sig.frequency = 0 ∨ sig.isAmbiguous = true then
    -- PRN (as needed) or ambiguous: quantity flagged for manual review
    .ok { totalQuantityNeeded := 0, unit := sig.doseUnit,
          daysSupply := daysSupply, dailyDose := 0 }
  else
    let dailyDose := sig.dose * sig.frequency
    let totalQuantity := dailyDose * daysSupply
    .ok { totalQuantityNeeded := totalQuantity, unit := sig.doseUnit,
          daysSupply := daysSupply, dailyDose := dailyDose }

/-- `validateDaysSupply` from `quantity-calculator.ts`.  The
`typeof`/`isNaN` guard of the source is unrepresentable over `ℚ` (every `ℚ`
is a valid number); the remaining else-if chain is kept in source order.
`Number.isInteger d` is `d.den = 1`. -/
def validateDaysSupply (daysSupply : ℚ) : DaysSupplyValidation :=
  let errors : List String :=
    if daysSupply ≤ 0 then ["Days supply must be greater than 0"]
    else if daysSupply > 365 then ["Days supply cannot exceed 365 days"]
    else if daysSupply.den ≠ 1 then ["Days supply must be a whole number"]
    else []
  { valid := errors.isEmpty, errors := errors }

/-- One step of a taper schedule (`{ tablets: number; days: number }`). -/
structure TaperStep where
  tablets : ℚ
  days : ℚ
  deriving Repr, DecidableEq

/-- The `for`-loop body of `calculateTaperQuantity`: accumulates
`totalQuantity` and `totalDays`, throwing on the first invalid step. -/
def taperLoop : List TaperStep → ℚ → ℚ → Except APIError (ℚ × ℚ)
  | [], totalQuantity, totalDays => .ok (totalQuantity, totalDays)
  | step :: rest, totalQuantity, totalDays =>
    if step.tablets < 0 ∨ step.days ≤ 0 then
      .error { message := "Invalid taper schedule: tablets and days must be positive",
               code := some "INVALID_INPUT" }
    else
      taperLoop rest (totalQuantity + step.tablets * step.days) (totalDays + step.days)

/-- `calculateTaperQuantity` from `quantity-calculator.ts`. -/
def calculateTaperQuantity (taperSchedule : List TaperStep) :
    Except APIError QuantityCalculation :=
  if taperSchedule.isEmpty then
    .error { message := "Taper schedule is required", code := some "INVALID_INPUT" }
  else
    match taperLoop taperSchedule 0 0 with
    | .error e => .error e
    | .ok (totalQuantity, totalDays) =>
      let avgDailyDose := if totalDays > 0 then totalQuantity / totalDays else 0
      .ok { totalQuantityNeeded := totalQuantity, unit := "tablet",
            daysSupply := totalDays, dailyDose := avgDailyDose }

/-- Result record of `isQuantityReasonable`. -/
structure ReasonablenessCheck where
  reasonable : Bool
  warnings : List String
  deriving Repr, DecidableEq

/-- `isQuantityReasonable` from `quantity-calculator.ts`. -/
def isQuantityReasonable (calculation : QuantityCalculation) : ReasonablenessCheck :=
  let warnings : List String :=
    (if calculation.totalQuantityNeeded > 1000 then
      ["Very high quantity calculated (" ++ toString calculation.totalQuantityNeeded ++
        " " ++ calculation.unit ++ "). Please verify."]
     else []) ++
    (if calculation.dailyDose > 100 then
      ["Very high daily dose (" ++ toString calculation.dailyDose ++
        " " ++ calculation.unit ++ "/day). Please verify."]
     else []) ++
    (if calculation.totalQuantityNeeded = 0 then
      ["Quantity could not be calculated (PRN or ambiguous SIG). Manual review required."]
     else [])
  { reasonable := warnings.isEmpty, warnings := warnings }

/-! ## External collaborators

The four asynchronous collaborator calls of the pipeline, plus the clock.
A fallible call is a function into `Except APIError` (a thrown collaborator
error is the `.error` case). -/

structure Collaborators where
  ndcToRxCUI : String → Except APIError RxCUIResult
  drugNameToRxCUI : String → Except APIError RxCUIResult
  parseSIG : String → Except APIError ParsedSIG
  getRxCUINDCs : String → Except APIError (List String)
  getMultipleNDCPackages : List String → Except APIError (List NDCPackage)
  now : String

/-- JavaScript `x || fallback` on strings: the fallback is used when the
string is empty (falsy). -/
def orFallback (s fallback : String) : String :=
  if s = "" then fallback else s

/-- JavaScript `x || fallback` on an optional string: the fallback is used
when the value is `undefined` or empty. -/
def orFallbackOpt (s : Option String) (fallback : String) : String :=
  match s with
  | none => fallback
  | some v => orFallback v fallback

/-! ## normalizer.ts -/

/-- Characters matched by the regex class `\s` (the whitespace characters
relevant to this code base; JavaScript additionally includes further Unicode
space separators, none of which the claims involve). -/
def jsWhitespace (c : Char) : Bool :=
  c = ' ' ∨ c = '\t' ∨ c = '\n' ∨ c = '\r' ∨ c = '\x0b' ∨ c = '\x0c' ∨ c = ' '

/-- `input.replace(/[\s-]/g, '')`: drop every whitespace character and dash. -/
def stripSpacesDashes (input : String) : String :=
  ⟨input.data.filter (fun c => ¬ (jsWhitespace c ∨ c = '-'))⟩

/-- JavaScript `String.prototype.trim`: remove leading and trailing `\s`
characters. -/
def jsTrim (s : String) : String :=
  ⟨((s.data.dropWhile jsWhitespace).reverse.dropWhile jsWhitespace).reverse⟩

/-- JavaScript `String.prototype.toLowerCase` (over the characters this code
base handles). -/
def jsToLower (s : String) : String :=
  ⟨s.data.map Char.toLower⟩

/-- `isNDCFormat` from `normalizer.ts`: after removing spaces and dashes the
remainder must match `/^\d{10,11}$/`. -/
def isNDCFormat (input : String) : Bool :=
  let cleaned := stripSpacesDashes input
  cleaned.data.all Char.isDigit ∧
    (cleaned.data.length = 10 ∨ cleaned.data.length = 11)

/-- Result record of `validateDrugInput`. -/
structure DrugInputValidation where
  valid : Bool
  cleaned : String
  errors : List String
  deriving Repr, DecidableEq

/-- `validateDrugInput` from `normalizer.ts`.  (`!input || input.trim().length
=== 0` collapses to emptiness of the trimmed string.) -/
def validateDrugInput (input : String) : DrugInputValidation :=
  if jsTrim input = "" then
    { valid := false, cleaned := "", errors := ["Drug name or NDC is required"] }
  else
    let cleaned := jsTrim input
    let looksLikeNDC :=
      cleaned.data ≠ [] ∧
        cleaned.data.all (fun c => c.isDigit ∨ jsWhitespace c ∨ c = '-')
    let errors : List String :=
      (if cleaned.length < 2 then
        ["Drug name or NDC must be at least 2 characters"] else []) ++
      (if cleaned.length > 200 then
        ["Drug name or NDC is too long (max 200 characters)"] else []) ++
      (if looksLikeNDC ∧ ¬ isNDCFormat cleaned then
        ["Invalid NDC format (must be 10 or 11 digits)"] else [])
    { valid := errors.isEmpty, cleaned := cleaned, errors := errors }

/-- The `catch` clause of `normalizeDrug`: re-wrap a thrown collaborator
error with additional context.  The thrown values are plain `APIError`
objects (not `Error` instances), so the `error instanceof Error` test is
false and the wrapped message uses the `'Unknown error'` arm. -/
def wrapNormalizationError (attempt : Except APIError RxCUIResult) :
    Except APIError RxCUIResult :=
  match attempt with
  | .ok r => .ok r
  | .error _ =>
    .error { message := "Failed to normalize drug: Unknown error",
             code := some "NORMALIZATION_ERROR" }

/-- `normalizeDrug` from `normalizer.ts`. -/
def normalizeDrug (env : Collaborators) (input : String) : Except APIError RxCUIResult :=
  if jsTrim input = "" then
    .error { message := "Drug name or NDC is required", code := some "INVALID_INPUT" }
  else
    let trimmedInput := jsTrim input
    wrapNormalizationError
      (if isNDCFormat trimmedInput then env.ndcToRxCUI trimmedInput
       else env.drugNameToRxCUI trimmedInput)

/-! ## ndc-selector.ts -/

/-- `Math.round` on an exact rational: round half toward positive infinity. -/
def jsRound (x : ℚ) : ℤ := ⌊x + 1/2⌋

/-- `Math.ceil` on an exact rational. -/
def jsCeil (x : ℚ) : ℤ := ⌈x⌉

/-- `calculateOverfill` from `ndc-selector.ts`: percentage overfill, rounded
to two decimal places via `Math.round(overfill * 100) / 100`. -/
def calculateOverfill (packageSize quantityNeeded : ℚ) : ℚ :=
  if quantityNeeded = 0 then 0
  else
    let overfill := ((packageSize - quantityNeeded) / quantityNeeded) * 100
    (jsRound (overfill * 100) : ℚ) / 100

/-- `const normalize = (unit) => unit.toLowerCase().trim()` in `unitsMatch`. -/
def normalizeUnit (unit : String) : String := jsTrim (jsToLower unit)

/-- The `equivalents` synonym table of `unitsMatch`, in source order. -/
def equivalents : List (String × List String) :=
  [("tablet", ["tab", "tablets"]),
   ("capsule", ["cap", "capsules"]),
   ("ml", ["milliliter", "milliliters"]),
   ("mg", ["milligram", "milligrams"]),
   ("g", ["gram", "grams"]),
   ("mcg", ["microgram", "micrograms", "ug"])]

/-- `unitsMatch` from `ndc-selector.ts`. -/
def unitsMatch (packageUnit calculationUnit : String) : Bool :=
  -- the source names the second normalized unit `calc`, a keyword here
  let pkg := normalizeUnit packageUnit
  let cal := normalizeUnit calculationUnit
  if pkg = cal then true
  else if pkg ++ "s" = cal ∨ cal ++ "s" = pkg then true
  else if pkg ++ "es" = cal ∨ cal ++ "es" = pkg then true
  else
    equivalents.any (fun e =>
      (pkg = e.1 ∨ e.2.contains pkg) ∧ (cal = e.1 ∨ e.2.contains cal))

/-- `filterCompatiblePackages` from `ndc-selector.ts`. -/
def filterCompatiblePackages (packages : List NDCPackage)
    (calculation : QuantityCalculation) : List NDCPackage :=
  packages.filter (fun pkg =>
    pkg.active ∧ unitsMatch pkg.packageUnit calculation.unit)

/-- `scorePackage` from `ndc-selector.ts` (lower is better). -/
def scorePackage (pkg : NDCPackage) (quantityNeeded : ℚ) : ℚ :=
  let packageSize := pkg.packageSize
  if packageSize < quantityNeeded then
    10000 + (quantityNeeded - packageSize)
  else if packageSize = quantityNeeded then 0
  else |calculateOverfill packageSize quantityNeeded|

/-- Options of `selectOptimalNDCs` with the destructuring defaults. -/
structure SelectOptions where
  maxOverfillPercent : ℚ := 20
  preferSinglePackage : Bool := true
  maxAlternatives : ℕ := 3
  deriving Repr, DecidableEq

/-- Result record of `selectOptimalNDCs`. -/
structure SelectionResult where
  primary : List NDCSelection
  alternatives : List NDCSelection
  warnings : List String
  deriving Repr, DecidableEq

/-- Insertion of a scored selection into an already sorted list, keeping
earlier-listed candidates first among equal scores (JavaScript
`Array.prototype.sort` is stable). -/
def insertByScore (x : NDCSelection × ℚ) :
    List (NDCSelection × ℚ) → List (NDCSelection × ℚ)
  | [] => [x]
  | y :: ys => if x.2 ≤ y.2 then x :: y :: ys else y :: insertByScore x ys

/-- Stable sort by ascending score (`selections.sort((a, b) => a.score - b.score)`). -/
def sortByScore (l : List (NDCSelection × ℚ)) : List (NDCSelection × ℚ) :=
  l.foldr insertByScore []

/-- `selectOptimalNDCs` from `ndc-selector.ts`.  The source carries the score
as an extra property on each selection object; the embedding pairs each
`NDCSelection` with its score and projects the score away in the returned
lists (the declared result type has no score field).  The `match` arm for an
empty sorted list is unreachable: it is only consulted after the
`compatible.isEmpty` early return. -/
def selectOptimalNDCs (packages : List NDCPackage)
    (calculation : QuantityCalculation)
    (options : SelectOptions := {}) : SelectionResult :=
  let maxOverfillPercent := options.maxOverfillPercent
  let maxAlternatives := options.maxAlternatives
  let quantityNeeded := calculation.totalQuantityNeeded
  -- Handle special case: PRN or ambiguous (quantity = 0)
  if quantityNeeded = 0 then
    { primary := [], alternatives := [],
      warnings :=
        ["Quantity could not be calculated (PRN or ambiguous SIG). Please dispense appropriate amount."] }
  else
    let compatible := filterCompatiblePackages packages calculation
    if compatible.isEmpty then
      { primary := [], alternatives := [],
        warnings := ["No compatible active NDCs found"] }
    else
      let selections := compatible.map (fun pkg =>
        let singlePackageQty := pkg.packageSize
        let numPackages := jsCeil (quantityNeeded / singlePackageQty)
        let totalDispensed := singlePackageQty * (numPackages : ℚ)
        let overfill := calculateOverfill totalDispensed quantityNeeded
        (({ ndc := pkg.ndc, packageSize := pkg.packageSize,
            packageUnit := pkg.packageUnit,
            quantityToDispense := totalDispensed,
            numberOfPackages := numPackages,
            overfillPercentage := overfill,
            productName := pkg.productName,
            manufacturer := pkg.manufacturer } : NDCSelection),
          scorePackage pkg quantityNeeded))
      match sortByScore selections with
      | [] => { primary := [], alternatives := [], warnings := [] }
      | best :: rest =>
        let warnings :=
          (if best.1.overfillPercentage > maxOverfillPercent then
            ["Primary selection has " ++ toString best.1.overfillPercentage ++
              "% overfill (exceeds " ++ toString maxOverfillPercent ++ "% threshold)"]
           else []) ++
          (if best.1.numberOfPackages > 1 then
            ["Requires " ++ toString best.1.numberOfPackages ++
              " packages to fulfill prescription"]
           else [])
        { primary := [best.1],
          alternatives := (rest.take maxAlternatives).map Prod.fst,
          warnings := warnings }

/-- `checkForInactiveNDCs` from `ndc-selector.ts`. -/
def checkForInactiveNDCs (packages : List NDCPackage) : List String :=
  let inactiveCount := (packages.filter (fun pkg => ¬ pkg.active)).length
  if inactiveCount > 0 then
    [toString inactiveCount ++ " inactive NDC(s) found. These have been excluded from selection."]
  else []

/-! ## calculator.ts -/

/-- `createErrorResult` from `calculator.ts`. -/
def createErrorResult (input : CalculationInput) (errors warnings : List String)
    (normalizedDrug : Option RxCUIResult := none)
    (parsedSIG : Option ParsedSIG := none)
    (calculation : Option QuantityCalculation := none)
    (now : String := "") : CalculationResult :=
  { success := false, input, normalizedDrug, parsedSIG, calculation,
    selectedNDCs := [],
    warnings := if warnings.length > 0 then warnings else [],
    errors := some errors,
    timestamp := now }

/-- `createPartialResult` from `calculator.ts`. -/
def createPartialResult (input : CalculationInput)
    (normalizedDrug : Option RxCUIResult) (parsedSIG : Option ParsedSIG)
    (calculation : Option QuantityCalculation)
    (selectedNDCs : List NDCSelection)
    (alternativeNDCs : Option (List NDCSelection))
    (warnings errors : List String) (now : String) : CalculationResult :=
  { success := errors.length = 0 ∧ selectedNDCs.length > 0,
    input, normalizedDrug, parsedSIG, calculation, selectedNDCs,
    alternativeNDCs :=
      match alternativeNDCs with
      | some l => if l.length > 0 then some l else none
      | none => none,
    warnings := if warnings.length > 0 then warnings else [],
    errors := if errors.length > 0 then some errors else none,
    timestamp := now }

/-- Step 5 of `calculatePrescription` (package fetch from the FDA
collaborator), returning the package list and the updated warnings. -/
def fetchPackages (env : Collaborators) (ndcCodes : List String)
    (warnings : List String) : List NDCPackage × List String :=
  if ndcCodes.length > 0 then
    match env.getMultipleNDCPackages ndcCodes with
    | .ok packages =>
      if packages.length = 0 then
        (packages, warnings ++ ["No package information found for available NDCs"])
      else
        (packages, warnings ++ checkForInactiveNDCs packages)
    | .error apiError =>
      -- Continue with empty packages - we'll return partial result
      ([], warnings ++
        [orFallback apiError.message "Failed to retrieve package information from FDA"])
  else ([], warnings)

/-- Step 7 of `calculatePrescription` (NDC selection) and the final result
assembly.  The inner `try` around `selectOptimalNDCs` is dead in the
embedding (the function is total), so the `catch` arm that demotes its
failure to a warning does not appear. -/
def assembleResult (env : Collaborators) (input : CalculationInput)
    (normalizedDrug : RxCUIResult) (parsedSIG : ParsedSIG)
    (calculation : QuantityCalculation) (packages : List NDCPackage)
    (warnings errors : List String) : CalculationResult :=
  let selection : List NDCSelection × Option (List NDCSelection) × List String :=
    if packages.length > 0 then
      let selectionResult := selectOptimalNDCs packages calculation
        { maxOverfillPercent := 20, preferSinglePackage := true, maxAlternatives := 3 }
      (selectionResult.primary, some selectionResult.alternatives,
        warnings ++ selectionResult.warnings)
    else
      ([], none, warnings ++ ["Cannot select NDCs: no compatible packages available"])
  let selectedNDCs := selection.1
  let alternativeNDCs := selection.2.1
  let warnings := selection.2.2
  -- Determine success status
  { success := errors.length = 0 ∧ selectedNDCs.length > 0,
    input,
    normalizedDrug := some normalizedDrug,
    parsedSIG := some parsedSIG,
    calculation := some calculation,
    selectedNDCs,
    alternativeNDCs :=
      match alternativeNDCs with
      | some l => if l.length > 0 then some l else none
      | none => none,
    warnings := if warnings.length > 0 then warnings else [],
    errors := if errors.length > 0 then some errors else none,
    timestamp := env.now }

/-- Steps 5–7 of `calculatePrescription` (package fetch, quantity
calculation, NDC selection, result assembly), with the mutable locals of the
source threaded through the step functions. -/
def calcFromStep5 (env : Collaborators) (input : CalculationInput)
    (normalizedDrug : RxCUIResult) (parsedSIG : ParsedSIG)
    (ndcCodes : List String) (warnings errors : List String) :
    CalculationResult :=
  -- Step 5: Get package info from FDA
  let packagesWarnings := fetchPackages env ndcCodes warnings
  -- Step 6: Calculate quantity
  match calculateQuantity parsedSIG input.daysSupply with
  | .error apiError =>
    createPartialResult input (some normalizedDrug) (some parsedSIG) none
      [] none packagesWarnings.2
      (errors ++ [orFallback apiError.message "Failed to calculate quantity"]) env.now
  | .ok calculation =>
    -- Step 7 and final assembly
    assembleResult env input normalizedDrug parsedSIG calculation
      packagesWarnings.1
      (packagesWarnings.2 ++ (isQuantityReasonable calculation).warnings) errors

/-- The `try` block of `calculatePrescription` (steps 1–7).  An error value
escaping this computation models an exception reaching the top-level
`catch`; every step-level `try`/`catch` of the source appears as a `match`
on the collaborator result. -/
def calcBody (env : Collaborators) (input : CalculationInput) :
    Except APIError CalculationResult :=
  -- Step 1: Validate input
  let drugValidation := validateDrugInput input.drugNameOrNDC
  if ¬ drugValidation.valid then
    .ok (createErrorResult input drugValidation.errors [] none none none env.now)
  else
  let daysSupplyValidation := validateDaysSupply input.daysSupply
  if ¬ daysSupplyValidation.valid then
    .ok (createErrorResult input daysSupplyValidation.errors [] none none none env.now)
  else
  -- Step 2: Normalize drug → RxCUI
  match normalizeDrug env drugValidation.cleaned with
  | .error apiError =>
    .ok (createErrorResult input
      [orFallback apiError.message "Failed to normalize drug name or NDC"]
      [] none none none env.now)
  | .ok normalizedDrug =>
  -- Step 3: Parse SIG with OpenAI
  match env.parseSIG input.sig with
  | .error apiError =>
    .ok (createErrorResult input
      [orFallback apiError.message "Failed to parse prescription instructions"]
      [] (some normalizedDrug) none none env.now)
  | .ok parsedSIG =>
  let warnings : List String :=
    if parsedSIG.isAmbiguous then
      [orFallbackOpt parsedSIG.clarificationNeeded
        "Prescription instructions are ambiguous and may need manual review"]
    else []
  -- Step 4: Get NDCs from RxNorm
  match env.getRxCUINDCs normalizedDrug.rxcui with
  | .ok ndcCodes =>
    if ndcCodes.length = 0 then
      .ok (createPartialResult input (some normalizedDrug) (some parsedSIG) none [] none
        (warnings ++
          ["No NDC codes found for this drug - this is a known limitation of the public RxNorm API"])
        [] env.now)
    else
      .ok (calcFromStep5 env input normalizedDrug parsedSIG ndcCodes warnings [])
  | .error apiError =>
    -- Continue with empty NDC list - we'll return partial result
    .ok (calcFromStep5 env input normalizedDrug parsedSIG []
      (warnings ++ [orFallback apiError.message "Failed to retrieve NDC codes from RxNorm"])
      [])

/-- `calculatePrescription` from `calculator.ts`: the `try` block
(`calcBody`) plus the top-level catch-all, which records the escaped
exception and returns a safe error result.  (The `catch` arm is proved
unreachable; the mutable locals it would read are at their initial values
there.) -/
def calculatePrescription (env : Collaborators) (input : CalculationInput) :
    CalculationResult :=
  match calcBody env input with
  | .ok result => result
  | .error apiError =>
    createErrorResult input
      [orFallback apiError.message "An unexpected error occurred during calculation"]
      [] none none none env.now

/-! ## Example inputs used by witnesses and counterexamples -/

/-- The dosing of spec Scenario B: 2 tablets, twice daily, unambiguous. -/
def sigScenB : ParsedSIG :=
  { dose := 2, doseUnit := "tablet", frequency := 2, route := "oral",
    instructions := "take 2 tablets twice daily", isAmbiguous := false }

/-- A PRN dosing: frequency 0. -/
def sigPRN : ParsedSIG :=
  { dose := 1, doseUnit := "tablet", frequency := 0, route := "oral",
    instructions := "take 1 tablet as needed", isAmbiguous := false }

/-- A small valid taper schedule (3 tablets for 2 days, then 1 for 4 days). -/
def taperEx : List TaperStep := [⟨3, 2⟩, ⟨1, 4⟩]

/-! ## Theorems for the claims -/

/-- C4: for every `ParsedSIG` with positive frequency and `isAmbiguous =
false`, and every days supply in `[1, 365]`, `calculateQuantity` returns
`dailyDose = dose × frequency` and
`totalQuantityNeeded = dose × frequency × daysSupply` exactly. -/
theorem calculateQuantity_formula (sig : ParsedSIG) (d : ℚ)
    (hfreq : 0 < sig.frequency) (hamb : sig.isAmbiguous = false)
    (h1 : 1 ≤ d) (h365 : d ≤ 365) :
    calculateQuantity sig d =
      .ok { totalQuantityNeeded := sig.dose * sig.frequency * d,
            unit := sig.doseUnit, daysSupply := d,
            dailyDose := sig.dose * sig.frequency } := by
  have h0 : ¬ d ≤ 0 := by linarith
  have h2 : ¬ d > 365 := by linarith
  have h3 : ¬ (sig.frequency = 0 ∨ sig.isAmbiguous = true) := by
    simp [hamb, hfreq.ne']
  simp [calculateQuantity, h0, h2, h3, mul_assoc]

/-- C4 witness: Scenario B dosing over 30 days. -/
theorem calculateQuantity_formula_witness :
    calculateQuantity sigScenB 30 =
      .ok { totalQuantityNeeded := sigScenB.dose * sigScenB.frequency * 30,
            unit := sigScenB.doseUnit, daysSupply := 30,
            dailyDose := sigScenB.dose * sigScenB.frequency } :=
  calculateQuantity_formula sigScenB 30 (by norm_num [sigScenB])
    (by norm_num [sigScenB]) (by norm_num) (by norm_num)

/-- C5: for every `ParsedSIG` with frequency 0 or `isAmbiguous = true`, and
every valid days supply, `calculateQuantity` returns a zero total quantity
and zero daily dose, regardless of the dose value. -/
theorem calculateQuantity_prn_zero (sig : ParsedSIG) (d : ℚ)
    (h : sig.frequency = 0 ∨ sig.isAmbiguous = true)
    (h0 : 0 < d) (h365 : d ≤ 365) :
    calculateQuantity sig d =
      .ok { totalQuantityNeeded := 0, unit := sig.doseUnit,
            daysSupply := d, dailyDose := 0 } := by
  have h0' : ¬ d ≤ 0 := not_le.mpr h0
  have h2 : ¬ d > 365 := not_lt.mpr h365
  simp [calculateQuantity, h0', h2, h]

/-- C5 witness: PRN dosing over 30 days. -/
theorem calculateQuantity_prn_zero_witness :
    calculateQuantity sigPRN 30 =
      .ok { totalQuantityNeeded := 0, unit := sigPRN.doseUnit,
            daysSupply := 30, dailyDose := 0 } :=
  calculateQuantity_prn_zero sigPRN 30 (by norm_num [sigPRN])
    (by norm_num) (by norm_num)

/-- C7: days-supply validation fails at 0 and 366 and succeeds at 1 and 365,
and `calculateQuantity` raises an `INVALID_INPUT` error exactly when the
days supply is `≤ 0` or `> 365`. -/
theorem daysSupply_boundaries :
    (validateDaysSupply 0).valid = false ∧
    (validateDaysSupply 366).valid = false ∧
    (validateDaysSupply 1).valid = true ∧
    (validateDaysSupply 365).valid = true ∧
    ∀ (sig : ParsedSIG) (d : ℚ),
      (∃ e, calculateQuantity sig d = .error e ∧ e.code = some "INVALID_INPUT") ↔
        (d ≤ 0 ∨ 365 < d) := by
  refine ⟨by norm_num [validateDaysSupply], by norm_num [validateDaysSupply],
    by norm_num [validateDaysSupply], by norm_num [validateDaysSupply],
    fun sig d => ?_⟩
  by_cases h0 : d ≤ 0
  · simp [calculateQuantity, h0]
  · by_cases h1 : d > 365
    · simp [calculateQuantity, h0, h1]
    · constructor
      · rintro ⟨e, he, -⟩
        by_cases h2 : sig.frequency = 0 ∨ sig.isAmbiguous = true <;>
          simp [calculateQuantity, h0, h1, h2] at he
      · rintro (h | h)
        · exact absurd h h0
        · exact absurd h h1

/-- C6: for every non-empty taper schedule with all amounts `≥ 0` and all
day counts `> 0`, `calculateTaperQuantity` returns the sum formulas (total
quantity, total days, average daily dose), the total is invariant under any
permutation of the steps, and a schedule containing a step with a negative
amount or a non-positive day count fails with the invalid-taper-schedule
error. -/
theorem calculateTaperQuantity_spec (l : List TaperStep) :
    (l ≠ [] → (∀ s ∈ l, 0 ≤ s.tablets ∧ 0 < s.days) →
      calculateTaperQuantity l =
        .ok { totalQuantityNeeded := (l.map (fun s => s.tablets * s.days)).sum,
              unit := "tablet",
              daysSupply := (l.map (fun s => s.days)).sum,
              dailyDose := (l.map (fun s => s.tablets * s.days)).sum /
                (l.map (fun s => s.days)).sum } ∧
      ∀ l', l.Perm l' →
        ∃ q q', calculateTaperQuantity l = .ok q ∧ calculateTaperQuantity l' = .ok q' ∧
          q.totalQuantityNeeded = q'.totalQuantityNeeded) ∧
    ((∃ s ∈ l, s.tablets < 0 ∨ s.days ≤ 0) →
      calculateTaperQuantity l =
        .error { message := "Invalid taper schedule: tablets and days must be positive",
                 code := some "INVALID_INPUT" }) := by
  have loop_ok : ∀ (m : List TaperStep) (tq td : ℚ),
      (∀ s ∈ m, 0 ≤ s.tablets ∧ 0 < s.days) →
      taperLoop m tq td =
        .ok (tq + (m.map (fun s => s.tablets * s.days)).sum,
             td + (m.map (fun s => s.days)).sum) := by
    intro m
    induction m with
    | nil => intro tq td _; simp [taperLoop]
    | cons s rest ih =>
      intro tq td h
      have hs := h s (List.mem_cons_self s rest)
      have hrest : ∀ t ∈ rest, 0 ≤ t.tablets ∧ 0 < t.days :=
        fun t ht => h t (List.mem_cons_of_mem s ht)
      have hcond : ¬ (s.tablets < 0 ∨ s.days ≤ 0) := by
        push_neg
        exact ⟨hs.1, hs.2⟩
      rw [taperLoop, if_neg hcond, ih _ _ hrest]
      congr 1
      ext <;> simp <;> ring
  have loop_err : ∀ (m : List TaperStep) (tq td : ℚ),
      (∃ s ∈ m, s.tablets < 0 ∨ s.days ≤ 0) →
      taperLoop m tq td =
        .error { message := "Invalid taper schedule: tablets and days must be positive",
                 code := some "INVALID_INPUT" } := by
    intro m
    induction m with
    | nil => intro tq td h; simp at h
    | cons s rest ih =>
      intro tq td h
      by_cases hcond : s.tablets < 0 ∨ s.days ≤ 0
      · rw [taperLoop, if_pos hcond]
      · rw [taperLoop, if_neg hcond]
        apply ih
        rcases h with ⟨t, ht, hbad⟩
        rcases List.mem_cons.mp ht with rfl | htr
        · exact absurd hbad hcond
        · exact ⟨t, htr, hbad⟩
  have eval_ok : ∀ (m : List TaperStep), m ≠ [] →
      (∀ s ∈ m, 0 ≤ s.tablets ∧ 0 < s.days) →
      calculateTaperQuantity m =
        .ok { totalQuantityNeeded := (m.map (fun s => s.tablets * s.days)).sum,
              unit := "tablet",
              daysSupply := (m.map (fun s => s.days)).sum,
              dailyDose := (m.map (fun s => s.tablets * s.days)).sum /
                (m.map (fun s => s.days)).sum } := by
    intro m hne hval
    have hpos : 0 < (m.map (fun s => s.days)).sum := by
      rcases m with _ | ⟨s, rest⟩
      · exact absurd rfl hne
      · have h0 : 0 < s.days := (hval s (List.mem_cons_self s rest)).2
        have hrest : 0 ≤ (rest.map (fun s => s.days)).sum := by
          apply List.sum_nonneg
          intro x hx
          rcases List.mem_map.mp hx with ⟨t, ht, rfl⟩
          exact le_of_lt (hval t (List.mem_cons_of_mem s ht)).2
        simp only [List.map_cons, List.sum_cons]
        linarith
    rw [calculateTaperQuantity, if_neg (by simpa using hne),
      loop_ok m 0 0 hval]
    simp [hpos]
  refine ⟨fun hne hval => ⟨eval_ok l hne hval, fun l' hperm => ?_⟩, fun hbad => ?_⟩
  · have hne' : l' ≠ [] := by
      intro h
      subst h
      exact hne hperm.eq_nil
    have hval' : ∀ s ∈ l', 0 ≤ s.tablets ∧ 0 < s.days :=
      fun s hs => hval s (hperm.symm.subset hs)
    refine ⟨_, _, eval_ok l hne hval, eval_ok l' hne' hval', ?_⟩
    exact (hperm.map (fun s => s.tablets * s.days)).sum_eq
  · have hne : ¬ l.isEmpty := by
      rcases hbad with ⟨s, hs, -⟩
      rcases l with _ | _
      · simp at hs
      · simp
    rw [calculateTaperQuantity, if_neg hne, loop_err l 0 0 hbad]

/-- C6 witness: a two-step taper (3 tablets for 2 days, 1 tablet for 4
days). -/
theorem calculateTaperQuantity_spec_witness :
    calculateTaperQuantity taperEx =
      .ok { totalQuantityNeeded := (taperEx.map (fun s => s.tablets * s.days)).sum,
            unit := "tablet",
            daysSupply := (taperEx.map (fun s => s.days)).sum,
            dailyDose := (taperEx.map (fun s => s.tablets * s.days)).sum /
              (taperEx.map (fun s => s.days)).sum } :=
  ((calculateTaperQuantity_spec taperEx).1 (by simp [taperEx])
    (by norm_num [taperEx])).1

/-- C10: unit compatibility is symmetric — `unitsMatch a b = unitsMatch b a`
for all strings, so package filtering does not depend on which side of the
comparison the package unit appears on. -/
theorem unitsMatch_comm (a b : String) : unitsMatch a b = unitsMatch b a := by
  simp only [unitsMatch]
  by_cases h1 : normalizeUnit a = normalizeUnit b
  · simp [h1]
  · have h1s : ¬ normalizeUnit b = normalizeUnit a := fun h => h1 h.symm
    by_cases h2 : normalizeUnit a ++ "s" = normalizeUnit b ∨
        normalizeUnit b ++ "s" = normalizeUnit a
    · simp [h1, h1s, h2, Or.symm h2]
    · have h2s : ¬ (normalizeUnit b ++ "s" = normalizeUnit a ∨
          normalizeUnit a ++ "s" = normalizeUnit b) := fun h => h2 (Or.symm h)
      by_cases h3 : normalizeUnit a ++ "es" = normalizeUnit b ∨
          normalizeUnit b ++ "es" = normalizeUnit a
      · simp [h1, h1s, h2, h2s, h3, Or.symm h3]
      · have h3s : ¬ (normalizeUnit b ++ "es" = normalizeUnit a ∨
            normalizeUnit a ++ "es" = normalizeUnit b) := fun h => h3 (Or.symm h)
        rw [if_neg h1, if_neg h1s, if_neg h2, if_neg h2s, if_neg h3, if_neg h3s]
        induction equivalents with
        | nil => rfl
        | cons x xs ih =>
          simp only [List.any_cons, ih]
          congr 1
          exact decide_eq_decide.mpr and_comm

/-- C10 witness: symmetry at a concrete pair of units. -/
theorem unitsMatch_comm_witness :
    unitsMatch "tab" "Tablets" = unitsMatch "Tablets" "tab" :=
  unitsMatch_comm "tab" "Tablets"

/-- A collaborator environment whose identity-resolution oracles tag which
path was taken (used to witness the classification claim). -/
def envClassify : Collaborators :=
  { ndcToRxCUI := fun s => .ok { rxcui := "code-path", name := s },
    drugNameToRxCUI := fun s => .ok { rxcui := "name-path", name := s },
    parseSIG := fun _ => .error { message := "unused" },
    getRxCUINDCs := fun _ => .ok [],
    getMultipleNDCPackages := fun _ => .ok [],
    now := "2024-01-01T00:00:00.000Z" }

/-- C9: the classification used by `normalizeDrug` is a pure function of the
string — after removing whitespace and dashes, exactly 10 or 11 digits means
the NDC-code path (`ndcToRxCUI`), anything else the name path
(`drugNameToRxCUI`); stated for every input whose trimmed form is non-empty
(the empty input is rejected before any classification happens). -/
theorem normalizeDrug_classification (env : Collaborators) (input : String)
    (h : jsTrim input ≠ "") :
    (isNDCFormat input = true ↔
      ((∀ c ∈ (stripSpacesDashes input).data, c.isDigit) ∧
        ((stripSpacesDashes input).data.length = 10 ∨
          (stripSpacesDashes input).data.length = 11))) ∧
    (isNDCFormat (jsTrim input) = true →
      normalizeDrug env input = wrapNormalizationError (env.ndcToRxCUI (jsTrim input))) ∧
    (isNDCFormat (jsTrim input) = false →
      normalizeDrug env input = wrapNormalizationError (env.drugNameToRxCUI (jsTrim input))) := by
  refine ⟨?_, ?_, ?_⟩
  · simp [isNDCFormat, List.all_eq_true]
  · intro hfmt
    simp [normalizeDrug, h, hfmt]
  · intro hfmt
    simp [normalizeDrug, h, hfmt]

/-- C9 witness: the dashed 10-digit code `0002-3227-30` is classified as an
NDC and delegated to the code-resolution path. -/
theorem normalizeDrug_classification_witness :
    normalizeDrug envClassify "0002-3227-30" =
      wrapNormalizationError (envClassify.ndcToRxCUI (jsTrim "0002-3227-30")) :=
  (normalizeDrug_classification envClassify "0002-3227-30" (by decide)).2.1 (by decide)

/-- A 60-count tablet bottle (spec Scenario B). -/
def pkg60ex : NDCPackage :=
  { ndc := "12345-0002-60", packageDescription := "Bottle of 60 tablets",
    packageSize := 60, packageUnit := "tablet", productName := "Drug X",
    manufacturer := "Acme", active := true }

/-- A 90-count tablet bottle (spec Scenario B). -/
def pkg90ex : NDCPackage :=
  { ndc := "12345-0003-90", packageDescription := "Bottle of 90 tablets",
    packageSize := 90, packageUnit := "tablet", productName := "Drug X",
    manufacturer := "Acme", active := true }

/-- The quantity calculation of spec Scenario B: 120 tablets needed. -/
def calc120ex : QuantityCalculation :=
  { totalQuantityNeeded := 120, unit := "tablet", daysSupply := 30, dailyDose := 4 }

/-- A zero-quantity calculation (PRN / ambiguous dosing). -/
def zeroCalcEx : QuantityCalculation :=
  { totalQuantityNeeded := 0, unit := "tablet", daysSupply := 30, dailyDose := 0 }

/-- Whether `needle` occurs at the start of `haystack`. -/
def leadsWith : List Char → List Char → Bool
  | [], _ => true
  | _ :: _, [] => false
  | a :: as, b :: bs => a = b && leadsWith as bs

/-- Whether `needle` occurs contiguously anywhere in `haystack`. -/
def containsSeq (needle : List Char) : List Char → Bool
  | [] => leadsWith needle []
  | c :: rest => leadsWith needle (c :: rest) || containsSeq needle rest

/-- Whether a message mentions manual review (case-insensitively). -/
def mentionsManualReview (s : String) : Bool :=
  containsSeq "manual review".data (jsToLower s).data

/-- Core evaluation for the Scenario-B selection: with 120 needed and active
compatible candidates of sizes 60 and 90 (both below the needed quantity,
hence both in the `10000 +` deficit penalty band), the 90-count package has
the smaller deficit (score `10030` against `10060`) and wins the primary
slot in either input order, dispensing 2 × 90 = 180 with 50% overfill. -/
theorem select120From60And90 (p1 p2 : NDCPackage)
    (calculation : QuantityCalculation) (options : SelectOptions)
    (h1s : p1.packageSize = 60) (h2s : p2.packageSize = 90)
    (h1a : p1.active = true) (h2a : p2.active = true)
    (h1u : unitsMatch p1.packageUnit calculation.unit = true)
    (h2u : unitsMatch p2.packageUnit calculation.unit = true)
    (hq : calculation.totalQuantityNeeded = 120) :
    (selectOptimalNDCs [p1, p2] calculation options).primary =
      [{ ndc := p2.ndc, packageSize := 90, packageUnit := p2.packageUnit,
         quantityToDispense := 180, numberOfPackages := 2,
         overfillPercentage := 50, productName := p2.productName,
         manufacturer := p2.manufacturer }] ∧
    (selectOptimalNDCs [p2, p1] calculation options).primary =
      [{ ndc := p2.ndc, packageSize := 90, packageUnit := p2.packageUnit,
         quantityToDispense := 180, numberOfPackages := 2,
         overfillPercentage := 50, productName := p2.productName,
         manufacturer := p2.manufacturer }] := by
  have hc1 : jsCeil (2 : ℚ) = 2 := by
    norm_num [jsCeil]
  have hc2 : jsCeil ((4:ℚ)/3) = 2 := by
    rw [jsCeil]
    apply Int.ceil_eq_iff.mpr
    constructor <;> norm_num
  have hc1q : jsCeil ((120:ℚ)/60) = 2 := by
    rw [show ((120:ℚ)/60) = 2 from by norm_num]
    exact hc1
  have hc2q : jsCeil ((120:ℚ)/90) = 2 := by
    rw [show ((120:ℚ)/90) = 4/3 from by norm_num]
    exact hc2
  have hov60 : calculateOverfill (120:ℚ) 120 = 0 := by
    rw [calculateOverfill]
    norm_num [jsRound]
  have hov90 : calculateOverfill (180:ℚ) 120 = 50 := by
    rw [calculateOverfill]
    norm_num [jsRound]
  have hsc1 : scorePackage p1 120 = 10060 := by
    rw [scorePackage, h1s]
    norm_num
  have hsc2 : scorePackage p2 120 = 10030 := by
    rw [scorePackage, h2s]
    norm_num
  have h60d : (60:ℚ) * ((2:ℤ):ℚ) = 120 := by push_cast; norm_num
  have h90d : (90:ℚ) * ((2:ℤ):ℚ) = 180 := by push_cast; norm_num
  have hle : ¬ ((10060:ℚ) ≤ 10030) := by norm_num
  have hle' : ((10030:ℚ) ≤ 10060) := by norm_num
  constructor
  · rw [selectOptimalNDCs]
    simp only [hq, h1s, h2s]
    rw [if_neg (by norm_num : ¬ ((120:ℚ) = 0))]
    have hcompat : filterCompatiblePackages [p1, p2] calculation = [p1, p2] := by
      simp [filterCompatiblePackages, h1a, h2a, h1u, h2u]
    rw [hcompat]
    simp only [List.isEmpty_cons, List.map_cons, List.map_nil, h1s, h2s]
    simp only [hsc1, hsc2, hc1q, hc2q, h60d, h90d, hov60, hov90,
      sortByScore, List.foldr, insertByScore]
    rw [if_neg hle]
    rfl
  · rw [selectOptimalNDCs]
    simp only [hq, h1s, h2s]
    rw [if_neg (by norm_num : ¬ ((120:ℚ) = 0))]
    have hcompat : filterCompatiblePackages [p2, p1] calculation = [p2, p1] := by
      simp [filterCompatiblePackages, h1a, h2a, h1u, h2u]
    rw [hcompat]
    simp only [List.isEmpty_cons, List.map_cons, List.map_nil, h1s, h2s]
    simp only [hsc1, hsc2, hc1q, hc2q, h60d, h90d, hov60, hov90,
      sortByScore, List.foldr, insertByScore]
    rw [if_pos hle']
    rfl

/-- C1 counterexample: at Scenario B itself (120 needed, active compatible
packages of sizes 60 and 90), the primary selection is the 90-count package,
not the 60-count one the claim asserts. -/
theorem select120_not_60_counterexample :
    (selectOptimalNDCs [pkg60ex, pkg90ex] calc120ex {}).primary.map
      (fun s => s.packageSize) = [90] ∧ (90 : ℚ) ≠ 60 := by
  have h := select120From60And90 pkg60ex pkg90ex calc120ex {} rfl rfl rfl rfl
    (by decide) (by decide) rfl
  constructor
  · rw [h.1]
    rfl
  · norm_num

/-- C1 amended: with 120 needed and two active compatible packages of sizes
60 and 90, `selectOptimalNDCs` returns the size-90 package as the primary
selection in either input order (both packages are smaller than the needed
quantity, so `scorePackage` puts both in the `10000 + deficit` penalty band,
where the 90-count deficit 30 beats the 60-count deficit 60; the selection
dispenses 2 packages, 180 total, 50% overfill). -/
theorem select120_prefers_90 (p1 p2 : NDCPackage)
    (calculation : QuantityCalculation) (options : SelectOptions)
    (h1s : p1.packageSize = 60) (h2s : p2.packageSize = 90)
    (h1a : p1.active = true) (h2a : p2.active = true)
    (h1u : unitsMatch p1.packageUnit calculation.unit = true)
    (h2u : unitsMatch p2.packageUnit calculation.unit = true)
    (hq : calculation.totalQuantityNeeded = 120) :
    (selectOptimalNDCs [p1, p2] calculation options).primary =
      [{ ndc := p2.ndc, packageSize := 90, packageUnit := p2.packageUnit,
         quantityToDispense := 180, numberOfPackages := 2,
         overfillPercentage := 50, productName := p2.productName,
         manufacturer := p2.manufacturer }] ∧
    (selectOptimalNDCs [p2, p1] calculation options).primary =
      [{ ndc := p2.ndc, packageSize := 90, packageUnit := p2.packageUnit,
         quantityToDispense := 180, numberOfPackages := 2,
         overfillPercentage := 50, productName := p2.productName,
         manufacturer := p2.manufacturer }] :=
  select120From60And90 p1 p2 calculation options h1s h2s h1a h2a h1u h2u hq

/-- C1 amended witness: Scenario B at the concrete packages. -/
theorem select120_prefers_90_witness :
    (selectOptimalNDCs [pkg60ex, pkg90ex] calc120ex {}).primary =
      [{ ndc := pkg90ex.ndc, packageSize := 90, packageUnit := pkg90ex.packageUnit,
         quantityToDispense := 180, numberOfPackages := 2,
         overfillPercentage := 50, productName := pkg90ex.productName,
         manufacturer := pkg90ex.manufacturer }] :=
  (select120_prefers_90 pkg60ex pkg90ex calc120ex {} rfl rfl rfl rfl
    (by decide) (by decide) rfl).1

/-- Core evaluation for the zero-quantity short circuit: the result is a
fixed record, independent of the package list. -/
theorem selectZeroQuantityCore (packages : List NDCPackage)
    (calculation : QuantityCalculation) (options : SelectOptions)
    (h : calculation.totalQuantityNeeded = 0) :
    selectOptimalNDCs packages calculation options =
      { primary := [], alternatives := [],
        warnings :=
          ["Quantity could not be calculated (PRN or ambiguous SIG). Please dispense appropriate amount."] } := by
  simp [selectOptimalNDCs, h]

/-- C8 counterexample: at a zero-quantity calculation the selector does
return empty primary and alternatives, but its single warning is the
"Please dispense appropriate amount" message, which does not mention manual
review (the "Manual review required." wording belongs to
`isQuantityReasonable`, not to `selectOptimalNDCs`). -/
theorem selectZeroQuantity_counterexample :
    (selectOptimalNDCs [pkg60ex] zeroCalcEx {}).primary = [] ∧
    (selectOptimalNDCs [pkg60ex] zeroCalcEx {}).alternatives = [] ∧
    (selectOptimalNDCs [pkg60ex] zeroCalcEx {}).warnings.any mentionsManualReview
      = false := by
  rw [selectZeroQuantityCore [pkg60ex] zeroCalcEx {} rfl]
  refine ⟨rfl, rfl, by decide⟩

/-- C8 amended: for every package list and every quantity calculation with
`totalQuantityNeeded = 0`, `selectOptimalNDCs` returns empty primary and
empty alternatives together with the single warning that the quantity could
not be calculated (PRN or ambiguous SIG) and an appropriate amount should be
dispensed, without examining the packages (the result is the same for every
package list). -/
theorem selectOptimalNDCs_zero_quantity (packages : List NDCPackage)
    (calculation : QuantityCalculation) (options : SelectOptions)
    (h : calculation.totalQuantityNeeded = 0) :
    selectOptimalNDCs packages calculation options =
      { primary := [], alternatives := [],
        warnings :=
          ["Quantity could not be calculated (PRN or ambiguous SIG). Please dispense appropriate amount."] } ∧
    selectOptimalNDCs packages calculation options =
      selectOptimalNDCs [] calculation options := by
  rw [selectZeroQuantityCore packages calculation options h,
    selectZeroQuantityCore [] calculation options h]
  exact ⟨rfl, rfl⟩

/-- C8 amended witness: a concrete zero-quantity calculation over a
non-empty package list. -/
theorem selectOptimalNDCs_zero_quantity_witness :
    selectOptimalNDCs [pkg60ex] zeroCalcEx {} =
      { primary := [], alternatives := [],
        warnings :=
          ["Quantity could not be calculated (PRN or ambiguous SIG). Please dispense appropriate amount."] } :=
  (selectOptimalNDCs_zero_quantity [pkg60ex] zeroCalcEx {} rfl).1

/-! ## The success/errors/selections invariant of the pipeline -/

/-- The result invariant claimed for `calculatePrescription`: success holds
exactly when the errors list is empty (or absent) and a primary selection
exists. -/
def resultInvariant (r : CalculationResult) : Prop :=
  r.success = true ↔ (r.errors.getD [] = [] ∧ r.selectedNDCs ≠ [])

theorem validateDrugInput_valid_eq (input : String) :
    (validateDrugInput input).valid = (validateDrugInput input).errors.isEmpty := by
  unfold validateDrugInput
  split <;> rfl

theorem validateDrugInput_invalid (input : String)
    (h : (validateDrugInput input).valid = false) :
    (validateDrugInput input).errors ≠ [] := by
  rw [validateDrugInput_valid_eq] at h
  intro hc
  rw [hc] at h
  simp at h

theorem validateDaysSupply_valid_eq (d : ℚ) :
    (validateDaysSupply d).valid = (validateDaysSupply d).errors.isEmpty := rfl

theorem validateDaysSupply_invalid (d : ℚ)
    (h : (validateDaysSupply d).valid = false) :
    (validateDaysSupply d).errors ≠ [] := by
  rw [validateDaysSupply_valid_eq] at h
  intro hc
  rw [hc] at h
  simp at h

theorem resultInvariant_createErrorResult (input : CalculationInput)
    (errors warnings : List String) (nd : Option RxCUIResult)
    (ps : Option ParsedSIG) (c : Option QuantityCalculation) (now : String)
    (h : errors ≠ []) :
    resultInvariant (createErrorResult input errors warnings nd ps c now) := by
  simp [resultInvariant, createErrorResult, h]

/-- The invariant for the shared result-assembly shape used by
`createPartialResult` and the final return of the pipeline. -/
theorem resultInvariant_assembled (input : CalculationInput)
    (nd : Option RxCUIResult) (ps : Option ParsedSIG)
    (c : Option QuantityCalculation) (sel : List NDCSelection)
    (alts : Option (List NDCSelection)) (warnings errors : List String)
    (now : String) :
    resultInvariant
      { success := errors.length = 0 ∧ sel.length > 0,
        input, normalizedDrug := nd, parsedSIG := ps, calculation := c,
        selectedNDCs := sel,
        alternativeNDCs :=
          match alts with
          | some l => if l.length > 0 then some l else none
          | none => none,
        warnings := if warnings.length > 0 then warnings else [],
        errors := if errors.length > 0 then some errors else none,
        timestamp := now } := by
  by_cases he : errors = [] <;> by_cases hs : sel = [] <;>
    simp [resultInvariant, he, hs, List.length_pos, List.length_eq_zero]

theorem resultInvariant_createPartialResult (input : CalculationInput)
    (nd : Option RxCUIResult) (ps : Option ParsedSIG)
    (c : Option QuantityCalculation) (sel : List NDCSelection)
    (alts : Option (List NDCSelection)) (warnings errors : List String)
    (now : String) :
    resultInvariant
      (createPartialResult input nd ps c sel alts warnings errors now) := by
  unfold createPartialResult
  exact resultInvariant_assembled input nd ps c sel alts warnings errors now

theorem resultInvariant_assembleResult (env : Collaborators)
    (input : CalculationInput) (nd : RxCUIResult) (ps : ParsedSIG)
    (calculation : QuantityCalculation) (packages : List NDCPackage)
    (warnings errors : List String) :
    resultInvariant
      (assembleResult env input nd ps calculation packages warnings errors) := by
  simp only [assembleResult]
  split
  · exact resultInvariant_assembled input (some nd) (some ps) (some calculation)
      (selectOptimalNDCs packages calculation
        { maxOverfillPercent := 20, preferSinglePackage := true, maxAlternatives := 3 }).primary
      (some (selectOptimalNDCs packages calculation
        { maxOverfillPercent := 20, preferSinglePackage := true, maxAlternatives := 3 }).alternatives)
      (warnings ++ (selectOptimalNDCs packages calculation
        { maxOverfillPercent := 20, preferSinglePackage := true, maxAlternatives := 3 }).warnings)
      errors env.now
  · exact resultInvariant_assembled input (some nd) (some ps) (some calculation)
      [] none (warnings ++ ["Cannot select NDCs: no compatible packages available"])
      errors env.now

theorem resultInvariant_calcFromStep5 (env : Collaborators)
    (input : CalculationInput) (nd : RxCUIResult) (ps : ParsedSIG)
    (codes : List String) (warnings errors : List String) :
    resultInvariant (calcFromStep5 env input nd ps codes warnings errors) := by
  simp only [calcFromStep5]
  split
  · exact resultInvariant_createPartialResult _ _ _ _ _ _ _ _ _
  · apply resultInvariant_assembleResult

/-- The `try` block always completes with a structured result (no error value
reaches the top-level catch), and that result satisfies the invariant. -/
theorem calcBody_ok_invariant (env : Collaborators) (input : CalculationInput) :
    ∃ r, calcBody env input = .ok r ∧ resultInvariant r := by
  simp only [calcBody]
  split
  · next h =>
    refine ⟨_, rfl, resultInvariant_createErrorResult _ _ _ _ _ _ _ ?_⟩
    exact validateDrugInput_invalid _ (by simpa using h)
  · split
    · next h =>
      refine ⟨_, rfl, resultInvariant_createErrorResult _ _ _ _ _ _ _ ?_⟩
      exact validateDaysSupply_invalid _ (by simpa using h)
    · split
      · exact ⟨_, rfl, resultInvariant_createErrorResult _ _ _ _ _ _ _ (by simp)⟩
      · split
        · exact ⟨_, rfl, resultInvariant_createErrorResult _ _ _ _ _ _ _ (by simp)⟩
        · split
          · split
            · exact ⟨_, rfl, resultInvariant_createPartialResult _ _ _ _ _ _ _ _ _⟩
            · exact ⟨_, rfl, resultInvariant_calcFromStep5 _ _ _ _ _ _ _⟩
          · exact ⟨_, rfl, resultInvariant_calcFromStep5 _ _ _ _ _ _ _⟩

/-! ## Scenario E: every step succeeds but no package is compatible -/

/-- An unambiguous once-daily one-tablet dosing. -/
def sigDaily : ParsedSIG :=
  { dose := 1, doseUnit := "tablet", frequency := 1, route := "oral",
    instructions := "take 1 tablet daily", isAmbiguous := false }

/-- An active package whose unit (patch) is incompatible with tablets. -/
def pkgPatch : NDCPackage :=
  { ndc := "99999-0001-30", packageDescription := "Box of 30 patches",
    packageSize := 30, packageUnit := "patch", productName := "Drug Y",
    manufacturer := "Acme", active := true }

/-- The resolved identity of Scenario E. -/
def rxScenE : RxCUIResult := { rxcui := "123", name := "Drug Y" }

/-- The quantity computed in Scenario E (30 tablets over 30 days). -/
def qtyScenE : QuantityCalculation :=
  { totalQuantityNeeded := 30, unit := "tablet", daysSupply := 30, dailyDose := 1 }

/-- Collaborators for Scenario E: every call succeeds, but the only catalog
package has an incompatible unit. -/
def envScenE : Collaborators :=
  { ndcToRxCUI := fun _ => .ok rxScenE,
    drugNameToRxCUI := fun _ => .ok rxScenE,
    parseSIG := fun _ => .ok sigDaily,
    getRxCUINDCs := fun _ => .ok ["99999-0001-30"],
    getMultipleNDCPackages := fun _ => .ok [pkgPatch],
    now := "2024-01-01T00:00:00.000Z" }

/-- The request of Scenario E. -/
def inputScenE : CalculationInput :=
  { drugNameOrNDC := "Lisinopril", sig := "take 1 tablet daily", daysSupply := 30 }

/-- The full result of Scenario E: not successful, yet with no errors. -/
def resultScenE : CalculationResult :=
  { success := false, input := inputScenE, normalizedDrug := some rxScenE,
    parsedSIG := some sigDaily, calculation := some qtyScenE,
    selectedNDCs := [], alternativeNDCs := none,
    warnings := ["No compatible active NDCs found"], errors := none,
    timestamp := "2024-01-01T00:00:00.000Z" }

/-- Shared evaluation of Scenario E through the whole pipeline. -/
theorem calculatePrescription_scenE :
    calculatePrescription envScenE inputScenE = resultScenE := by
  have hv1 : validateDrugInput inputScenE.drugNameOrNDC =
      { valid := true, cleaned := "Lisinopril", errors := [] } := by decide
  have hv2 : validateDaysSupply inputScenE.daysSupply = { valid := true, errors := [] } := by
    show validateDaysSupply 30 = _
    unfold validateDaysSupply
    norm_num
  have hn : normalizeDrug envScenE "Lisinopril" = .ok rxScenE := by
    have h1 : jsTrim "Lisinopril" ≠ "" := by decide
    have h2 : isNDCFormat (jsTrim "Lisinopril") = false := by decide
    simp [normalizeDrug, h1, h2, wrapNormalizationError, envScenE]
  have hu : unitsMatch pkgPatch.packageUnit qtyScenE.unit = false := by decide
  have hq : calculateQuantity sigDaily inputScenE.daysSupply = .ok qtyScenE := by
    show calculateQuantity sigDaily 30 = _
    unfold calculateQuantity qtyScenE
    norm_num [sigDaily]
  have hsel : selectOptimalNDCs [pkgPatch] qtyScenE
      { maxOverfillPercent := 20, preferSinglePackage := true, maxAlternatives := 3 } =
      { primary := [], alternatives := [],
        warnings := ["No compatible active NDCs found"] } := by
    rw [selectOptimalNDCs]
    rw [if_neg (show ¬ (qtyScenE.totalQuantityNeeded = 0) from by norm_num [qtyScenE])]
    have hc : filterCompatiblePackages [pkgPatch] qtyScenE = [] := by
      simp [filterCompatiblePackages, hu]
    rw [hc]
    rfl
  have hfetch : fetchPackages envScenE ["99999-0001-30"] [] = ([pkgPatch], []) := by
    rw [fetchPackages]
    simp [envScenE, checkForInactiveNDCs, pkgPatch]
  have hreas : isQuantityReasonable qtyScenE = { reasonable := true, warnings := [] } := by
    unfold isQuantityReasonable qtyScenE
    norm_num
  have hass : assembleResult envScenE inputScenE rxScenE sigDaily qtyScenE
      [pkgPatch] [] [] = resultScenE := by
    simp only [assembleResult, hsel]
    norm_num [envScenE, resultScenE]
  have hstep5 : calcFromStep5 envScenE inputScenE rxScenE sigDaily
      ["99999-0001-30"] [] [] = resultScenE := by
    simp only [calcFromStep5, hfetch, hq, hreas, List.append_nil, List.nil_append]
    exact hass
  have hbody : calcBody envScenE inputScenE = .ok resultScenE := by
    simp only [calcBody, hv1, hv2, hn]
    simp only [show envScenE.parseSIG inputScenE.sig = .ok sigDaily from rfl,
      show envScenE.getRxCUINDCs rxScenE.rxcui = .ok ["99999-0001-30"] from rfl,
      show sigDaily.isAmbiguous = false from rfl]
    norm_num
    exact hstep5
  rw [calculatePrescription, hbody]

/-- C2: for every collaborator behavior and every input, the result of
`calculatePrescription` has `success = true` exactly when its errors list is
empty (or absent) and at least one primary selection exists; and in the
concrete scenario where every step succeeds but no compatible active package
exists, the result has `success = false` with no errors. -/
theorem calculatePrescription_success_iff :
    (∀ (env : Collaborators) (input : CalculationInput),
      (calculatePrescription env input).success = true ↔
        ((calculatePrescription env input).errors.getD [] = [] ∧
          (calculatePrescription env input).selectedNDCs ≠ [])) ∧
    ((calculatePrescription envScenE inputScenE).success = false ∧
      (calculatePrescription envScenE inputScenE).errors = none) := by
  constructor
  · intro env input
    obtain ⟨r, hr, hinv⟩ := calcBody_ok_invariant env input
    rw [calculatePrescription, hr]
    exact hinv
  · rw [calculatePrescription_scenE]
    exact ⟨rfl, rfl⟩

/-- C3: for every collaborator behavior and every input, the pipeline body
(the `try` block, in which every step-level failure is already handled)
completes with a structured `CalculationResult` — no exception value ever
reaches the top-level catch, so `calculatePrescription` never lets an
exception escape to its caller and always returns the assembled result. -/
theorem calculatePrescription_no_escape :
    ∀ (env : Collaborators) (input : CalculationInput),
      ∃ r, calcBody env input = .ok r ∧ calculatePrescription env input = r := by
  intro env input
  obtain ⟨r, hr, -⟩ := calcBody_ok_invariant env input
  exact ⟨r, hr, by rw [calculatePrescription, hr]⟩

end PharmCalc
